import Mathlib

/-!
Shallow embedding of `src/bokehjs/src/lib/models/ui/ui_element.ts` and
verification of the specification claims about `UIElementView`.

Host-environment effects (style assignments, trace logging, measured
geometry, the `finish` signal) are made explicit: style application
returns the list of performed `(name, value)` assignments together with
the list of emitted trace messages; the view's mutable fields
(`_bbox`, `style`, `_display`) are carried in an explicit state record.
-/

namespace UI

/-- A value occurring in a style source (`CSSStyles` values are
`string | null` in the source; `_iter_styles` yields `unknown`). -/
inductive Value where
  | str : String → Value
  | null : Value
deriving DecidableEq, Repr

/-- `isString` from `core/util/types`. -/
def isString : Value → Bool
  | .str _ => true
  | .null => false

/-- The string carried by a string value (only used under `isString`). -/
def getStr : Value → String
  | .str s => s
  | .null => ""

/-- A style source is either a plain name-to-value mapping (`CSSStyles`)
or a typed `Styles` record, given by its property list of
`(attr, get_value)` pairs. -/
inductive StylesSource where
  | plain : List (String × Value) → StylesSource
  | typed : List (String × Value) → StylesSource
deriving DecidableEq, Repr

/-- `_iter_styles`: for a typed `Styles` record, yield each property whose
`attr` is not among the base `Model` property names (`model_attrs` is the
key set of `Model.prototype._props`, a parameter of the embedding); for a
plain mapping, yield its entries in order. -/
def iter_styles (model_attrs : List String) : StylesSource → List (String × Value)
  | .typed ps => ps.filter (fun p => !(model_attrs.contains p.1))
  | .plain m => m

/-- `attr.replace(/_/g, "-")`, as a character-wise map. -/
def normalize (attr : String) : String :=
  String.mk (attr.data.map (fun c => if c = '_' then '-' else c))

/-- One iteration of the loop in `_apply_styles` for the pair
`(attr, value)`: `known` is the host surface's `name in this.el.style`
test.  Returns the list of performed style assignments and the list of
emitted trace messages.  The inner `apply(name, value)` assigns only when
the name is known and the value is a string, and reports whether the name
was known; the loop retries with `-webkit-` and `-moz-` prefixes and
traces when no variant is known. -/
def apply_style_pair (known : String → Bool) (attr : String) (v : Value) :
    List (String × String) × List String :=
  let name := normalize attr
  if known name then
    (if isString v then [(name, getStr v)] else [], [])
  else if known ("-webkit-" ++ name) then
    (if isString v then [("-webkit-" ++ name, getStr v)] else [], [])
  else if known ("-moz-" ++ name) then
    (if isString v then [("-moz-" ++ name, getStr v)] else [], [])
  else
    ([], ["unknown CSS property \x27" ++ name ++ "\x27"])

/-- `_apply_styles`: iterate the enumerated pairs in order, concatenating
the per-pair assignments and traces. -/
def apply_styles (known : String → Bool) (pairs : List (String × Value)) :
    List (String × String) × List String :=
  (pairs.map (fun p => apply_style_pair known p.1 p.2)).foldr
    (fun a b => (a.1 ++ b.1, a.2 ++ b.2)) ([], [])

/-- The declaration lines of one selector block in `_apply_stylesheets`:
one line `"  name: value;"` per enumerated pair whose value is a
non-empty string, the name with `_` replaced by `-`; other pairs are
omitted. -/
def render_decl_lines (model_attrs : List String) (src : StylesSource) : List String :=
  (iter_styles model_attrs src).filterMap (fun p =>
    match p.2 with
    | .str s => if s.length ≠ 0 then some ("  " ++ normalize p.1 ++ ": " ++ s ++ ";") else none
    | .null => none)

/-- JavaScript `Array.prototype.join("\n")` on a list of strings. -/
def join_nl : List String → String
  | [] => ""
  | [a] => a
  | a :: rest => a ++ "\n" ++ join_nl rest

/-- Rendering of a plain-object stylesheet entry in `_apply_stylesheets`:
per selector in insertion order push `"selector \x7b"`, the declaration
lines, and `"\x7d"`, then join all lines with newlines. -/
def render_stylesheet_entry (model_attrs : List String) (m : List (String × StylesSource)) :
    String :=
  join_nl
    (List.flatten (m.map (fun p => (p.1 ++ " \x7b") :: (render_decl_lines model_attrs p.2 ++ ["\x7d"]))))

/-- An entry of the `stylesheets` argument of `_apply_stylesheets`:
an opaque pre-formed stylesheet, or a selector-to-styles mapping. -/
inductive StyleSheetLike where
  | text : String → StyleSheetLike
  | map : List (String × StylesSource) → StyleSheetLike
deriving DecidableEq, Repr

/-- `_apply_stylesheets`: the texts handed to the base implementation —
plain-object entries are rendered to text, other entries pass through. -/
def apply_stylesheets_texts (model_attrs : List String) (ss : List StyleSheetLike) :
    List String :=
  ss.map (fun s =>
    match s with
    | .text t => t
    | .map m => render_stylesheet_entry model_attrs m)

/-- `_apply_visible`: the resulting content of the `_display` StyleSheet,
given the model's `visible` flag (clear on true, replace with the
`:host` display override on false). -/
def apply_visible (visible : Bool) (_display_css : String) : String :=
  if visible then "" else ":host \x7b display: none !important; \x7d"

/-- Modelled from the spec: the base component view (`DOMComponentView`,
not under `src/`) contributes no CSS classes of its own; the effective
class list is the structural class followed by the model's declared
classes. -/
def css_classes : List String := []

/-- The `classes` getter: `[...css_classes(), ...this._classes()]`, where
`_classes()` yields the single structural class `"bk-" + model.type`. -/
def view_classes (type_name : String) : List String :=
  css_classes ++ ["bk-" ++ type_name]

/-- The class sequence applied to the host surface during `render`:
`_apply_classes(this.classes)` followed by
`_apply_classes(this.model.classes)`. -/
def render_applied_classes (type_name : String) (model_classes : List String) :
    List String :=
  view_classes type_name ++ model_classes

/-- A measured rectangle in the host surface's global coordinate space
(`getBoundingClientRect`); coordinates are modelled as rationals. -/
structure Rect where
  left : ℚ
  top : ℚ
  width : ℚ
  height : ℚ
deriving DecidableEq, Repr

/-- `BBox` from `core/util/bbox`, as constructed by `_update_bbox`:
four integer fields; the default `new BBox()` is all zeroes. -/
structure BBox where
  left : ℤ
  top : ℤ
  width : ℤ
  height : ℤ
deriving DecidableEq, Repr

/-- The geometry-relevant host state of a view: whether the element is
displayed (`el.offsetParent != null`), the element's measured rectangle,
and the parent view's measured rectangle when a parent view exists. -/
structure GeomState where
  displayed : Bool
  self_rect : Rect
  parent_rect : Option Rect
deriving DecidableEq, Repr

/-- `_update_bbox`: the freshly computed bounding box.  When displayed,
left/top are the element's measured left/top minus the parent's when a
parent view exists, and `\x7bleft: 0, top: 0\x7d` otherwise; all four
fields are rounded (`Math.round`, i.e. `⌊x + 1/2⌋`).  When not
displayed, the default zero `BBox`. -/
def update_bbox (g : GeomState) : BBox :=
  if g.displayed then
    let lt : ℚ × ℚ :=
      match g.parent_rect with
      | some parent => (g.self_rect.left - parent.left, g.self_rect.top - parent.top)
      | none => (0, 0)
    ⟨round lt.1, round lt.2, round g.self_rect.width, round g.self_rect.height⟩
  else ⟨0, 0, 0, 0⟩

/-- The mutable state of a `UIElementView` relevant to the claims:
the `_bbox` cache (absent until first computed), the host geometry,
the contents of the view-owned `style` and `_display` StyleSheets, and
the number of `finish()` signals emitted so far. -/
structure ViewState where
  bbox_cache : Option BBox
  geom : GeomState
  style_css : String
  display_css : String
  finished : Nat
deriving DecidableEq, Repr

/-- The body of `_update_bbox` as a state transition: unconditionally
replace the cached `_bbox` with the freshly computed box. -/
def update_bbox_op (v : ViewState) : ViewState :=
  ⟨some (update_bbox v.geom), v.geom, v.style_css, v.display_css, v.finished⟩

/-- The `bbox` getter: if the cache is absent, run `_update_bbox` first;
return the cached box together with the possibly updated state. -/
def get_bbox (v : ViewState) : BBox × ViewState :=
  match v.bbox_cache with
  | some b => (b, v)
  | none => (update_bbox v.geom, update_bbox_op v)

/-- `finish()`: emit the finish signal (the base implementation is not
under `src/`; only the count of emissions is modelled). -/
def finish (v : ViewState) : ViewState :=
  ⟨v.bbox_cache, v.geom, v.style_css, v.display_css, v.finished + 1⟩

/-- `after_resize`: recompute the bounding box (`update_bbox`), run the
element-specific `_after_resize` hook (a no-op in `UIElementView`), and
emit `finish()`. -/
def after_resize (v : ViewState) : ViewState :=
  finish (update_bbox_op v)

/-- `update_style`: clear the view-owned `style` StyleSheet. -/
def update_style (v : ViewState) : ViewState :=
  ⟨v.bbox_cache, v.geom, "", v.display_css, v.finished⟩

/-- `after_render`: run `update_style()` and, when the element is not
displayed (`_is_displayed` is `el.offsetParent != null`), emit
`finish()`. -/
def after_render (v : ViewState) : ViewState :=
  let v1 := update_style v
  if !v1.geom.displayed then finish v1 else v1

/-- A serializable-state snapshot: the base view's snapshot (opaque,
of type `β`) extended with the bounding box's four fields. -/
structure Snapshot (β : Type) where
  base : β
  bbox : BBox
deriving DecidableEq, Repr

/-- `serializable_state`: spread of `super.serializable_state()` (the
base snapshot, produced outside this core and modelled from the spec as
read-only) extended with `bbox: this.bbox.box`; reading `this.bbox`
goes through the lazy getter, so the state may change. -/
def serializable_state {β : Type} (base : β) (v : ViewState) : Snapshot β × ViewState :=
  (⟨base, (get_bbox v).1⟩, (get_bbox v).2)

/-- Claim C1 (counterexample): for a displayed element with no parent
view, `_update_bbox` sets `left` to `0`, not to the rounded measured
left — at measured rect `(5, 7, 10, 20)` the claim's
`bbox.left == round(measured.left)` fails. -/
theorem C1_counterex_no_parent_left :
    (update_bbox ⟨true, ⟨5, 7, 10, 20⟩, none⟩).left = 0
  ∧ round ((5 : ℚ)) = 5
  ∧ (update_bbox ⟨true, ⟨5, 7, 10, 20⟩, none⟩).left ≠ round ((5 : ℚ)) := by
  refine ⟨by simp [update_bbox], by simp, by simp [update_bbox]⟩

/-- Claim C1 (amended): recomputing the bounding box yields, for a
displayed element with a parent view, the rounded measured left/top
minus the parent's measured left/top and rounded measured
width/height; for a displayed element with no parent view, `left = 0`
and `top = 0` (not the rounded measured left/top) with rounded
measured width/height; and for a non-displayed element, the zero
default `BBox`. -/
theorem C1_bbox_rule (g : GeomState) :
    (g.displayed = false → update_bbox g = ⟨0, 0, 0, 0⟩)
  ∧ (g.displayed = true → g.parent_rect = none →
      update_bbox g = ⟨0, 0, round g.self_rect.width, round g.self_rect.height⟩)
  ∧ (∀ pr, g.displayed = true → g.parent_rect = some pr →
      update_bbox g = ⟨round (g.self_rect.left - pr.left), round (g.self_rect.top - pr.top),
        round g.self_rect.width, round g.self_rect.height⟩) := by
  refine ⟨fun h => ?_, fun h h2 => ?_, fun pr h h2 => ?_⟩
  · simp [update_bbox, h]
  · simp [update_bbox, h, h2]
  · simp [update_bbox, h, h2]

/-- Witness for C1_bbox_rule at concrete geometry states. -/
theorem C1_bbox_rule_witness :
    update_bbox ⟨false, ⟨5, 7, 10, 20⟩, none⟩ = ⟨0, 0, 0, 0⟩
  ∧ update_bbox ⟨true, ⟨5, 7, 10, 20⟩, none⟩ = ⟨0, 0, 10, 20⟩
  ∧ update_bbox ⟨true, ⟨5, 7, 10, 20⟩, some ⟨1, 2, 100, 100⟩⟩ = ⟨4, 5, 10, 20⟩ := by
  refine ⟨(C1_bbox_rule _).1 rfl,
    ((C1_bbox_rule _).2.1 rfl rfl).trans ?_,
    ((C1_bbox_rule ⟨true, ⟨5, 7, 10, 20⟩, some ⟨1, 2, 100, 100⟩⟩).2.2 ⟨1, 2, 100, 100⟩ rfl rfl).trans ?_⟩ <;>
    norm_num [BBox.mk.injEq, round_eq]

/-- Claim C2 (counterexample): the `classes` query for an element of
kind "button" returns only `["bk-button"]`; it does not include the
model-declared classes `["a", "b"]`. -/
theorem C2_counterex_classes_query :
    view_classes "button" = ["bk-button"]
  ∧ view_classes "button" ≠ ["bk-button", "a", "b"] := by
  constructor <;> decide

/-- Claim C2 (amended): the `classes` query returns the base view's
classes (none) followed by the single structural class `"bk-" + kind`;
the model-declared classes are applied separately during `render`, so
the full class sequence applied to the host surface is the structural
class followed by the model classes in declared order. -/
theorem C2_classes_composition (t : String) (model_classes : List String) :
    view_classes t = ["bk-" ++ t]
  ∧ render_applied_classes t model_classes = ("bk-" ++ t) :: model_classes := by
  exact ⟨rfl, rfl⟩

/-- Claim C3 (counterexample): `after_render` does not recompute the
cached bounding box — for a non-displayed element with a stale cached
box `(9,9,9,9)`, the cache still holds `(9,9,9,9)` after
`after_render`, not the freshly computed zero box. -/
theorem C3_counterex_after_render :
    (after_render ⟨some ⟨9, 9, 9, 9⟩, ⟨false, ⟨0, 0, 0, 0⟩, none⟩, "x", "", 0⟩).bbox_cache
      = some ⟨9, 9, 9, 9⟩
  ∧ update_bbox (⟨false, ⟨0, 0, 0, 0⟩, none⟩ : GeomState) = ⟨0, 0, 0, 0⟩
  ∧ (after_render ⟨some ⟨9, 9, 9, 9⟩, ⟨false, ⟨0, 0, 0, 0⟩, none⟩, "x", "", 0⟩).bbox_cache
      ≠ some (update_bbox (⟨false, ⟨0, 0, 0, 0⟩, none⟩ : GeomState)) := by
  refine ⟨rfl, rfl, by decide⟩

/-- Claim C3 (amended): every `after_resize` recomputes the cached
bounding box; `after_render` never recomputes it (when the element is
not displayed it only clears the style stylesheet and emits the finish
signal); additionally the `bbox` getter computes the box lazily when
the cache is empty and leaves the state untouched when it is not. -/
theorem C3_bbox_triggers (v : ViewState) :
    (after_resize v).bbox_cache = some (update_bbox v.geom)
  ∧ (after_render v).bbox_cache = v.bbox_cache
  ∧ (v.geom.displayed = false →
      after_render v = finish (update_style v) ∧ (after_render v).finished = v.finished + 1)
  ∧ (v.bbox_cache = none → (get_bbox v).2.bbox_cache = some (update_bbox v.geom))
  ∧ (∀ b, v.bbox_cache = some b → get_bbox v = (b, v)) := by
  refine ⟨rfl, ?_, fun h => ?_, fun h => ?_, fun b h => ?_⟩
  · unfold after_render
    cases h : v.geom.displayed <;> simp [h, finish, update_style]
  · simp [after_render, update_style, h]
    rfl
  · simp [get_bbox, h, update_bbox_op]
  · simp [get_bbox, h]

/-- Witness for C3_bbox_triggers at concrete view states. -/
theorem C3_bbox_triggers_witness :
    after_render ⟨some ⟨1, 1, 1, 1⟩, ⟨false, ⟨0, 0, 0, 0⟩, none⟩, "x", "", 0⟩
      = finish (update_style ⟨some ⟨1, 1, 1, 1⟩, ⟨false, ⟨0, 0, 0, 0⟩, none⟩, "x", "", 0⟩)
  ∧ (get_bbox ⟨none, ⟨false, ⟨0, 0, 0, 0⟩, none⟩, "", "", 0⟩).2.bbox_cache
      = some (update_bbox (⟨false, ⟨0, 0, 0, 0⟩, none⟩ : GeomState))
  ∧ get_bbox ⟨some ⟨1, 1, 1, 1⟩, ⟨true, ⟨0, 0, 0, 0⟩, none⟩, "", "", 0⟩
      = (⟨1, 1, 1, 1⟩, ⟨some ⟨1, 1, 1, 1⟩, ⟨true, ⟨0, 0, 0, 0⟩, none⟩, "", "", 0⟩) :=
  ⟨((C3_bbox_triggers _).2.2.1 rfl).1,
   (C3_bbox_triggers _).2.2.2.1 rfl,
   (C3_bbox_triggers _).2.2.2.2 ⟨1, 1, 1, 1⟩ rfl⟩

/-- Claim C4 (counterexample): a non-string style value is not always
skipped silently — when no variant of the attribute name is recognized
by the host surface, `_apply_styles` emits the unknown-property trace
diagnostic even though the value is not a string. -/
theorem C4_counterex_nonstring_trace :
    isString Value.null = false
  ∧ apply_styles (fun _ => false) [("foo", Value.null)]
      = ([], ["unknown CSS property \x27foo\x27"]) :=
  ⟨rfl, rfl⟩

/-- Claim C4 (amended): a pair with a non-string value never causes a
host-surface style mutation; it is skipped without diagnostic when
some variant of the normalized name (unprefixed, `-webkit-`, `-moz-`)
is recognized; when no variant is recognized, the unknown-property
trace diagnostic is emitted regardless of the value's type. -/
theorem C4_nonstring_skip (known : String → Bool) (attr : String) (v : Value)
    (hv : isString v = false) :
    (apply_style_pair known attr v).1 = []
  ∧ ((known (normalize attr) || known ("-webkit-" ++ normalize attr)
      || known ("-moz-" ++ normalize attr)) = true →
      (apply_style_pair known attr v).2 = [])
  ∧ ((known (normalize attr) || known ("-webkit-" ++ normalize attr)
      || known ("-moz-" ++ normalize attr)) = false →
      (apply_style_pair known attr v).2
        = ["unknown CSS property \x27" ++ normalize attr ++ "\x27"]) := by
  unfold apply_style_pair
  cases h1 : known (normalize attr) <;>
    cases h2 : known ("-webkit-" ++ normalize attr) <;>
      cases h3 : known ("-moz-" ++ normalize attr) <;>
        simp [h1, h2, h3, hv]

/-- Witness for C4_nonstring_skip: with a host surface knowing only
`color`, a null value for `color` mutates nothing and traces nothing. -/
theorem C4_nonstring_skip_witness :
    (apply_style_pair (fun n => n == "color") "color" Value.null).1 = []
  ∧ (apply_style_pair (fun n => n == "color") "color" Value.null).2 = [] :=
  ⟨(C4_nonstring_skip (fun n => n == "color") "color" Value.null rfl).1,
   (C4_nonstring_skip (fun n => n == "color") "color" Value.null rfl).2.1 (by decide)⟩

/-- Claim C5: enumerating a typed `Styles` record yields exactly the
plain-mapping enumeration with the attributes belonging to the base
model property namespace filtered out; in particular, when no
attribute coincides with a base-model property name, the two forms
produce identical style applications. -/
theorem C5_styles_refinement (model_attrs : List String) (known : String → Bool)
    (ps : List (String × Value)) :
    iter_styles model_attrs (StylesSource.typed ps)
      = (iter_styles model_attrs (StylesSource.plain ps)).filter
          (fun p => !(model_attrs.contains p.1))
  ∧ ((∀ p ∈ ps, model_attrs.contains p.1 = false) →
      apply_styles known (iter_styles model_attrs (StylesSource.typed ps))
        = apply_styles known (iter_styles model_attrs (StylesSource.plain ps))) := by
  refine ⟨rfl, fun h => ?_⟩
  have he : ps.filter (fun p => !(model_attrs.contains p.1)) = ps :=
    List.filter_eq_self.mpr (fun a ha => by rw [h a ha]; rfl)
  show apply_styles known (ps.filter (fun p => !(model_attrs.contains p.1)))
    = apply_styles known ps
  rw [he]

/-- Witness for C5_styles_refinement at concrete style sources. -/
theorem C5_styles_refinement_witness :
    iter_styles ["visible"]
        (StylesSource.typed [("color", Value.str "red"), ("visible", Value.str "v")])
      = ([("color", Value.str "red"), ("visible", Value.str "v")].filter
          (fun p => !((["visible"] : List String).contains p.1)))
  ∧ apply_styles (fun n => n == "color")
        (iter_styles [] (StylesSource.typed [("color", Value.str "red")]))
      = apply_styles (fun n => n == "color")
        (iter_styles [] (StylesSource.plain [("color", Value.str "red")])) :=
  ⟨(C5_styles_refinement ["visible"] (fun n => n == "color") _).1,
   (C5_styles_refinement [] (fun n => n == "color") _).2 (by decide)⟩

/-- Claim C6: rendering the stylesheet-map entry
`\x7b".sel": \x7bcolor: "red", bg_color: ""\x7d\x7d` yields exactly
`".sel \x7b\n  color: red;\n\x7d"`; in general a pair contributes one
`"  name: value;"` line (with `_` replaced by `-`) exactly when its
value is a non-empty string, and is omitted otherwise.  The rendering
function is pure: it produces text and performs no host mutation. -/
theorem C6_stylesheet_render (mattrs : List String) (a s : String)
    (rest : List (String × Value)) (hs : s.length ≠ 0) :
    render_stylesheet_entry []
        [(".sel", StylesSource.plain [("color", Value.str "red"), ("bg_color", Value.str "")])]
      = ".sel \x7b\n  color: red;\n\x7d"
  ∧ render_decl_lines mattrs (StylesSource.plain ((a, Value.null) :: rest))
      = render_decl_lines mattrs (StylesSource.plain rest)
  ∧ render_decl_lines mattrs (StylesSource.plain ((a, Value.str "") :: rest))
      = render_decl_lines mattrs (StylesSource.plain rest)
  ∧ render_decl_lines mattrs (StylesSource.plain ((a, Value.str s) :: rest))
      = ("  " ++ normalize a ++ ": " ++ s ++ ";")
          :: render_decl_lines mattrs (StylesSource.plain rest) := by
  refine ⟨rfl, rfl, ?_, ?_⟩
  · simp [render_decl_lines, iter_styles]
  · simp [render_decl_lines, iter_styles, hs]

/-- Witness for C6_stylesheet_render at a concrete declaration pair. -/
theorem C6_stylesheet_render_witness :
    render_decl_lines [] (StylesSource.plain [("bg_color", Value.str "red")])
      = ("  " ++ normalize "bg_color" ++ ": " ++ "red" ++ ";")
          :: render_decl_lines [] (StylesSource.plain []) :=
  (C6_stylesheet_render [] "bg_color" "red" [] (by decide)).2.2.2


/-- Claim C7: inline style application normalizes `_` to `-`, tries the
unprefixed name, then `-webkit-`, then `-moz-`, assigning at the first
recognized variant; when no variant is recognized it emits the
unknown-property trace naming the normalized name and performs no
assignment; a pair never halts processing — effects of a pair list are
the concatenation of the per-pair effects. -/
theorem C7_style_fallback (known : String → Bool) (attr : String) (s : String) :
    (known (normalize attr) = true →
      apply_style_pair known attr (Value.str s) = ([(normalize attr, s)], []))
  ∧ (known (normalize attr) = false → known ("-webkit-" ++ normalize attr) = true →
      apply_style_pair known attr (Value.str s) = ([("-webkit-" ++ normalize attr, s)], []))
  ∧ (known (normalize attr) = false → known ("-webkit-" ++ normalize attr) = false →
      known ("-moz-" ++ normalize attr) = true →
      apply_style_pair known attr (Value.str s) = ([("-moz-" ++ normalize attr, s)], []))
  ∧ (known (normalize attr) = false → known ("-webkit-" ++ normalize attr) = false →
      known ("-moz-" ++ normalize attr) = false →
      ∀ v, apply_style_pair known attr v
        = ([], ["unknown CSS property \x27" ++ normalize attr ++ "\x27"]))
  ∧ (∀ pairs, apply_styles known ((attr, Value.str s) :: pairs)
      = ((apply_style_pair known attr (Value.str s)).1 ++ (apply_styles known pairs).1,
         (apply_style_pair known attr (Value.str s)).2 ++ (apply_styles known pairs).2)) := by
  refine ⟨fun h1 => ?_, fun h1 h2 => ?_, fun h1 h2 h3 => ?_, fun h1 h2 h3 v => ?_, fun pairs => ?_⟩
  · simp [apply_style_pair, h1, isString, getStr]
  · simp [apply_style_pair, h1, h2, isString, getStr]
  · simp [apply_style_pair, h1, h2, h3, isString, getStr]
  · simp [apply_style_pair, h1, h2, h3]
  · simp [apply_styles]

/-- Witness for C7_style_fallback: `-webkit-` fallback assignment and the
unknown-property trace at concrete inputs. -/
theorem C7_style_fallback_witness :
    apply_style_pair (fun n => n == "-webkit-mask") "mask" (Value.str "url(a)")
      = ([("-webkit-mask", "url(a)")], [])
  ∧ apply_style_pair (fun _ => false) "foo_bar" (Value.str "x")
      = ([], ["unknown CSS property \x27foo-bar\x27"]) := by
  refine ⟨(C7_style_fallback (fun n => n == "-webkit-mask") "mask" "url(a)").2.1
      (by decide) (by decide),
    ((C7_style_fallback (fun _ => false) "foo_bar" "x").2.2.2.1 rfl rfl rfl
      (Value.str "x")).trans ?_⟩
  rfl

/-- Claim C8: starting from any `_display` content on which the
visibility override has been applied with `visible = true`, applying
it with `visible = false` and then `visible = true` again restores the
`_display` StyleSheet content exactly (the toggle round trip is the
identity on the display stylesheet). -/
theorem C8_visible_roundtrip (s : String) :
    apply_visible true (apply_visible false (apply_visible true s)) = apply_visible true s :=
  rfl

/-- Claim C9 (counterexample): `serializable_state` is not
side-effect-free at every point after initialize — called on a view
whose bounding-box cache is still empty, it populates the cache
(through the lazy `bbox` getter), changing the view's state. -/
theorem C9_counterex_lazy_cache :
    (serializable_state () ⟨none, ⟨false, ⟨0, 0, 0, 0⟩, none⟩, "", "", 0⟩).2
      ≠ (⟨none, ⟨false, ⟨0, 0, 0, 0⟩, none⟩, "", "", 0⟩ : ViewState)
  ∧ (serializable_state () ⟨none, ⟨false, ⟨0, 0, 0, 0⟩, none⟩, "", "", 0⟩).2.bbox_cache
      = some ⟨0, 0, 0, 0⟩ := by
  constructor <;> decide

/-- Claim C9 (amended): `serializable_state` returns the base view's
snapshot extended with the current bounding box; when the bounding-box
cache is already populated it is fully read-only (the state is
returned unchanged); when the cache is empty its only state change is
populating the cache with the freshly computed box — the style and
display stylesheets, the geometry, and the finish count are never
touched. -/
theorem C9_serializable_state (base : Bool) (v : ViewState) :
    (serializable_state base v).1 = ⟨base, (get_bbox v).1⟩
  ∧ (∀ b, v.bbox_cache = some b → serializable_state base v = (⟨base, b⟩, v))
  ∧ (v.bbox_cache = none →
      (serializable_state base v).2 = update_bbox_op v
      ∧ (serializable_state base v).1 = ⟨base, update_bbox v.geom⟩)
  ∧ (serializable_state base v).2.style_css = v.style_css
  ∧ (serializable_state base v).2.display_css = v.display_css
  ∧ (serializable_state base v).2.geom = v.geom
  ∧ (serializable_state base v).2.finished = v.finished := by
  obtain ⟨bc, g, sc, dc, f⟩ := v
  cases bc <;>
    simp [serializable_state, get_bbox, update_bbox_op]

/-- Witness for C9_serializable_state on a view with a populated
bounding-box cache. -/
theorem C9_serializable_state_witness :
    serializable_state true ⟨some ⟨1, 2, 3, 4⟩, ⟨false, ⟨0, 0, 0, 0⟩, none⟩, "", "", 0⟩
      = (⟨true, ⟨1, 2, 3, 4⟩⟩,
         ⟨some ⟨1, 2, 3, 4⟩, ⟨false, ⟨0, 0, 0, 0⟩, none⟩, "", "", 0⟩) :=
  (C9_serializable_state true
      ⟨some ⟨1, 2, 3, 4⟩, ⟨false, ⟨0, 0, 0, 0⟩, none⟩, "", "", 0⟩).2.1
    ⟨1, 2, 3, 4⟩ rfl

/-- Claim C10: in stylesheet-map rendering, a selector whose
declaration pairs are all omitted still contributes its block — the
rendered text for a single-selector mapping with no valid declarations
is exactly `selector \x7b\n\x7d`, not the empty string. -/
theorem C10_empty_block (mattrs : List String) (sel : String) (src : StylesSource)
    (h : render_decl_lines mattrs src = []) :
    render_stylesheet_entry mattrs [(sel, src)] = sel ++ " \x7b\n\x7d" := by
  have h2 : render_stylesheet_entry mattrs [(sel, src)]
      = (sel ++ " \x7b") ++ "\n" ++ "\x7d" := by
    simp [render_stylesheet_entry, h, join_nl]
  rw [h2, String.append_assoc, String.append_assoc]
  rfl

/-- Witness for C10_empty_block: a selector whose only declaration has
a non-string value renders to an empty block. -/
theorem C10_empty_block_witness :
    render_stylesheet_entry [] [(".x", StylesSource.plain [("color", Value.null)])]
      = ".x" ++ " \x7b\n\x7d" :=
  C10_empty_block [] ".x" (StylesSource.plain [("color", Value.null)]) rfl

end UI
